import Mathlib

/-!
Shallow embedding of the boros-vault-monitor tracking engine
(src/vaultMonitor.ts, src/stateManager.ts, src/config.ts, src/types.ts)
and proofs about it.

Conventions of the embedding:
- JS bigint values that are always non-negative in this program
  (`totalSupplyCap`, `totalSupply`, `maturity`, block numbers, timestamps)
  are modelled as `Nat`; bigint truncating division of non-negative values
  is `Nat` division.
- Decimal strings produced by bigint `.toString()` are modelled as their
  big-endian digit lists (`List Nat`); `.toString()` never yields the empty
  string (zero prints as "0"), which the model preserves.
- JS `string.toLowerCase()` is `lowerStr` (character-wise lowering).
- A JS object used as a map is an association list `List (String × _)`;
  property assignment replaces in place or appends (function `insertAssoc`),
  matching JS key-ordering semantics.
- Fallible external calls (RPC) are modelled by explicit observation
  records passed to the function; a caught exception is a Boolean flag in
  the observation saying the corresponding `try` block threw.
-/

/-- Lower-casing as performed by JS `toLowerCase` on the ASCII contract
addresses this program handles (stateManager.ts `address.toLowerCase()`). -/
def lowerStr (s : String) : String :=
  ⟨s.data.map Char.toLower⟩

/-- Vault record, from `VaultState` in src/types.ts. -/
structure VaultState where
  address : String
  name : String
  symbol : String
  totalSupplyCap : ℕ
  lastKnownTotalSupply : ℕ
  isFilled : Bool
  maturity : ℕ
  marketAddress : String
  lastCheckedBlock : ℕ
  createdAt : ℕ
  depositTokenSymbol : Option String
deriving DecidableEq, Repr

/-- Persisted aggregate state, from `MonitorState` in src/types.ts.
The `vaults` record is an association list from (lower-cased) address
keys to vault records. -/
structure MonitorState where
  lastProcessedBlock : ℕ
  vaults : List (String × VaultState)
deriving DecidableEq, Repr

/-- `VaultMonitor.isVaultFilled` (src/vaultMonitor.ts lines 59-70):
zero cap is never filled; otherwise compare utilization basis points
`(currentSupply * 10000n) / totalSupplyCap` (truncating bigint division of
non-negative values, i.e. Nat division) against
`BigInt(Math.floor(CONFIG.FILLED_THRESHOLD_PERCENT * 100))`, modelled as
the floor of the rational threshold times 100. -/
def isVaultFilled (currentSupply totalSupplyCap : ℕ) (thresholdPercent : ℚ) : Bool :=
  if totalSupplyCap = 0 then
    false
  else
    let utilizationBasisPoints : ℤ := ((currentSupply * 10000 / totalSupplyCap : ℕ) : ℤ)
    let thresholdBasisPoints : ℤ := ⌊thresholdPercent * 100⌋
    decide (thresholdBasisPoints ≤ utilizationBasisPoints)

/-- The four notification kinds of the `Notifier` interface in
src/types.ts: `notifyNewVault`, `notifyCapRaised`, `notifyVaultFilled`,
`notifyVaultAvailable`. Each constructor carries the arguments the
tracker passes to the corresponding method. -/
inductive Notification where
  | newVault (vault : VaultState) (isFilled : Bool)
  | capRaised (vault : VaultState) (oldCap newCap currentSupply : ℕ)
  | vaultFilled (vault : VaultState)
  | vaultAvailable (vault : VaultState) (currentSupply : ℕ)
deriving DecidableEq, Repr

/-- True exactly for the `vaultAvailable` notification kind. -/
def Notification.isVaultAvailableKind : Notification → Bool
  | .vaultAvailable _ _ => true
  | _ => false

/-- True exactly for the `newVault` notification kind. -/
def Notification.isNewVaultKind : Notification → Bool
  | .newVault _ _ => true
  | _ => false

/-- The decimal string bigint `.toString()` produces, modelled as a
big-endian digit list. `toString` of zero is "0" (a non-empty string),
hence the zero case produces `[0]`, never the empty list. -/
def serializeNat (n : ℕ) : List ℕ :=
  if n = 0 then [0] else (Nat.digits 10 n).reverse

/-- `BigInt(decimalString)` on a big-endian digit list. -/
def parseDecimal (digitList : List ℕ) : ℕ :=
  Nat.ofDigits 10 digitList.reverse

/-- The per-vault shape written to the JSON state file by
`StateManager.saveState` (src/stateManager.ts lines 61-75): cap, supply
and maturity as decimal strings, the rest natively. A `none`
`depositTokenSymbol` is an absent property (`JSON.stringify` drops
`undefined`-valued properties). -/
structure SavedVault where
  address : String
  name : String
  symbol : String
  totalSupplyCap : List ℕ
  lastKnownTotalSupply : List ℕ
  isFilled : Bool
  maturity : List ℕ
  marketAddress : String
  lastCheckedBlock : ℕ
  createdAt : ℕ
  depositTokenSymbol : Option String
deriving DecidableEq, Repr

/-- The whole JSON state file shape. -/
structure SavedState where
  lastProcessedBlock : ℕ
  vaults : List (String × SavedVault)
deriving DecidableEq, Repr

/-- Serialization of one vault record inside `StateManager.saveState`. -/
def saveVault (vault : VaultState) : SavedVault where
  address := vault.address
  name := vault.name
  symbol := vault.symbol
  totalSupplyCap := serializeNat vault.totalSupplyCap
  lastKnownTotalSupply := serializeNat vault.lastKnownTotalSupply
  isFilled := vault.isFilled
  maturity := serializeNat vault.maturity
  marketAddress := vault.marketAddress
  lastCheckedBlock := vault.lastCheckedBlock
  createdAt := vault.createdAt
  depositTokenSymbol := vault.depositTokenSymbol

/-- `StateManager.saveState` (src/stateManager.ts lines 53-81), the
serialization it performs before writing the file. -/
def saveState (state : MonitorState) : SavedState where
  lastProcessedBlock := state.lastProcessedBlock
  vaults := state.vaults.map (fun p => (p.1, saveVault p.2))

/-- Deserialization of one vault inside `StateManager.loadState`
(src/stateManager.ts lines 24-39), including every `||` fallback of the
source: a falsy saved value is the empty digit list / empty string /
zero / `none` respectively.  `now` is the value `Date.now()` returns at
load time (the fallback for a falsy `createdAt`). -/
def loadVault (now : ℕ) (v : SavedVault) : VaultState where
  address := v.address
  name := v.name
  symbol := v.symbol
  totalSupplyCap := parseDecimal v.totalSupplyCap
  lastKnownTotalSupply := parseDecimal (if v.lastKnownTotalSupply = [] then [0] else v.lastKnownTotalSupply)
  isFilled := v.isFilled || false
  maturity := parseDecimal (if v.maturity = [] then [0] else v.maturity)
  marketAddress := if v.marketAddress = "" then "" else v.marketAddress
  lastCheckedBlock := if v.lastCheckedBlock = 0 then 0 else v.lastCheckedBlock
  createdAt := if v.createdAt = 0 then now else v.createdAt
  depositTokenSymbol :=
    match v.depositTokenSymbol with
    | none => none
    | some s => if s = "" then none else some s

/-- The parsing branch of `StateManager.loadState` (src/stateManager.ts
lines 17-41), applied when the state file exists and reads and parses
without error. -/
def loadStateParsed (now : ℕ) (parsed : SavedState) : MonitorState where
  lastProcessedBlock := if parsed.lastProcessedBlock = 0 then 0 else parsed.lastProcessedBlock
  vaults := parsed.vaults.map (fun p => (p.1, loadVault now p.2))

/-- The default state `StateManager.loadState` falls back to
(src/stateManager.ts lines 47-50): `CONFIG.START_BLOCK || 0` with an
empty vault map.  `startBlock` is `CONFIG.START_BLOCK` from
src/config.ts (`undefined` when the env var is unset). -/
def defaultState (startBlock : Option ℕ) : MonitorState where
  lastProcessedBlock :=
    match startBlock with
    | none => 0
    | some n => if n = 0 then 0 else n
  vaults := []

/-- `StateManager.loadState` (src/stateManager.ts lines 13-51) as a
function of the file system observation: `none` means the state file
does not exist (`fs.existsSync` false), `some none` means reading or
parsing it threw (the `catch` branch), `some (some parsed)` is a
successful read. -/
def loadStateFile (startBlock : Option ℕ) (now : ℕ)
    (file : Option (Option SavedState)) : MonitorState :=
  match file with
  | none => defaultState startBlock
  | some none => defaultState startBlock
  | some (some parsed) => loadStateParsed now parsed

/-- JS object property assignment `obj[k] = v` on an association list:
replace the value in place if the key is present, otherwise append. -/
def insertAssoc (k : String) (v : VaultState) :
    List (String × VaultState) → List (String × VaultState)
  | [] => [(k, v)]
  | p :: rest => if p.1 = k then (k, v) :: rest else p :: insertAssoc k v rest

/-- `StateManager.getVault` (src/stateManager.ts lines 98-101): look the
address up under its lower-cased form. -/
def getVault (state : MonitorState) (address : String) : Option VaultState :=
  state.vaults.lookup (lowerStr address)

/-- `StateManager.addVault` (src/stateManager.ts lines 83-87): store the
record under the lower-cased address key. -/
def addVault (state : MonitorState) (vault : VaultState) : MonitorState :=
  { state with vaults := insertAssoc (lowerStr vault.address) vault state.vaults }

/-- What the chain reports about a vault while one creation event is
processed in `VaultMonitor.monitorNewVaults` (src/vaultMonitor.ts lines
565-596): the six contract reads, the market's `getLatestFTime`, the
token-symbol fetch (which returns `null` on any failure), the event's
block number and `Date.now()`. -/
structure CreationObs where
  name : String
  symbol : String
  totalSupplyCap : ℕ
  totalSupply : ℕ
  maturity : ℕ
  marketAddress : String
  latestFTime : ℕ
  depositTokenSymbol : Option String
  blockNumber : ℕ
  nowMs : ℕ
deriving DecidableEq, Repr

/-- Processing of one `AMMCreated` event in `VaultMonitor.monitorNewVaults`
(src/vaultMonitor.ts lines 550-614): if the vault is already in the
store (looked up under the lower-cased address) the event is skipped;
otherwise the record is built, stored via `addVault`, and a
`notifyNewVault` call is made unless the vault is expired
(`latestFTime >= maturity`). Returns the new store and the emitted
notifications. -/
def processCreationEvent (state : MonitorState) (ammAddress : String)
    (o : CreationObs) (thresholdPercent : ℚ) : MonitorState × List Notification :=
  match getVault state ammAddress with
  | some _ => (state, [])
  | none =>
    let vault : VaultState :=
      { address := ammAddress
        name := o.name
        symbol := o.symbol
        totalSupplyCap := o.totalSupplyCap
        lastKnownTotalSupply := o.totalSupply
        isFilled := isVaultFilled o.totalSupply o.totalSupplyCap thresholdPercent
        maturity := o.maturity
        marketAddress := o.marketAddress
        lastCheckedBlock := o.blockNumber
        createdAt := o.nowMs
        depositTokenSymbol := o.depositTokenSymbol }
    let isExpired : Bool := decide (o.latestFTime ≥ o.maturity)
    let notes : List Notification :=
      if isExpired then []
      else if vault.isFilled = false then [Notification.newVault vault false]
      else [Notification.newVault vault true]
    (addVault state vault, notes)

/-- Processing of one `TotalSupplyCapUpdated` event for a (non-expired)
stored vault in `VaultMonitor.monitorCapUpdates` (src/vaultMonitor.ts
lines 639-678): update the record, always call `notifyCapRaised`, and
when the vault moves from filled to not filled additionally call
`notifyNewVault` with `isFilled := false`. Returns the record written
through `updateVault` and the emitted notifications. -/
def processCapEvent (vault : VaultState) (newCap currentSupply blockNumber : ℕ)
    (thresholdPercent : ℚ) : VaultState × List Notification :=
  let oldCap := vault.totalSupplyCap
  let wasFilled := vault.isFilled
  let isNowFilled := isVaultFilled currentSupply newCap thresholdPercent
  let updated : VaultState :=
    { vault with
        totalSupplyCap := newCap
        lastKnownTotalSupply := currentSupply
        isFilled := isNowFilled
        lastCheckedBlock := blockNumber }
  let notes : List Notification :=
    [Notification.capRaised
        { vault with totalSupplyCap := newCap, lastKnownTotalSupply := currentSupply }
        oldCap newCap currentSupply]
    ++ (if wasFilled && !isNowFilled then
          [Notification.newVault
              { vault with totalSupplyCap := newCap, lastKnownTotalSupply := currentSupply,
                           isFilled := false }
              false]
        else [])
  (updated, notes)

/-- What the chain reports for one stored vault during a cap-update pass
(src/vaultMonitor.ts lines 626-647): whether the RPC work for this vault
threw (caught by the per-vault `catch`), the market's `getLatestFTime`,
the decoded `TotalSupplyCapUpdated` events as (newCap, blockNumber)
pairs, and the vault's `totalSupply()` read. -/
structure CapObs where
  vaultThrows : Bool
  latestFTime : ℕ
  events : List (ℕ × ℕ)
  currentSupply : ℕ
deriving DecidableEq, Repr

/-- The notifications produced by the event loop body of
`monitorCapUpdates` for one vault. -/
def capEventNotes (vault : VaultState) (o : CapObs) (thresholdPercent : ℚ) :
    List (ℕ × ℕ) → List Notification
  | [] => []
  | e :: rest =>
    (processCapEvent vault e.1 o.currentSupply e.2 thresholdPercent).2
      ++ capEventNotes vault o thresholdPercent rest

/-- `VaultMonitor.monitorCapUpdates` (src/vaultMonitor.ts lines 621-684),
notifications only. The source iterates over `getAllVaults()`; inside the
per-vault `try` it queries the vault's events, then checks expiry and
executes `return` — not `continue` — for an expired vault, which exits
the whole function and leaves the remaining vaults unprocessed. A thrown
per-vault RPC error is caught and the loop moves to the next vault. -/
def monitorCapUpdates (vaults : List VaultState) (obs : String → CapObs)
    (thresholdPercent : ℚ) : List Notification :=
  match vaults with
  | [] => []
  | vault :: rest =>
    let o := obs vault.address
    if o.vaultThrows then
      monitorCapUpdates rest obs thresholdPercent
    else if o.latestFTime ≥ vault.maturity then
      []
    else
      capEventNotes vault o thresholdPercent o.events
        ++ monitorCapUpdates rest obs thresholdPercent

/-- Result of one `VaultMonitor.checkVaultStatus` call (src/vaultMonitor.ts
lines 700-777): the record written through `updateVault` (`none` when the
vault is expired and the function returns early, so nothing is written),
the notifications, and whether `invalidateLiveVaultsCache` was called. -/
structure StatusCheckResult where
  updated : Option VaultState
  notes : List Notification
  cacheInvalidated : Bool
deriving DecidableEq, Repr

/-- `VaultMonitor.checkVaultStatus` (src/vaultMonitor.ts lines 700-777) on
the fresh chain reads `latestFTime`, `totalSupply`, `totalSupplyCap`.
Expired vaults are skipped entirely. Otherwise the cache is invalidated
in the cap-changed branch and in the fill-status-changed branch, and the
new cap/supply/fill fields are persisted unconditionally at the end.
(The token-symbol backfill write at lines 713-719 touches none of those
three fields and is omitted.) -/
def checkVaultStatus (vault : VaultState) (latestFTime totalSupply totalSupplyCap : ℕ)
    (thresholdPercent : ℚ) : StatusCheckResult :=
  if latestFTime ≥ vault.maturity then
    { updated := none, notes := [], cacheInvalidated := false }
  else
    let wasFilled := vault.isFilled
    let isNowFilled := isVaultFilled totalSupply totalSupplyCap thresholdPercent
    let capChanged : Bool := decide (totalSupplyCap ≠ vault.totalSupplyCap)
    let fillChanged : Bool := decide (wasFilled ≠ isNowFilled)
    let capNotes : List Notification :=
      if capChanged then
        [Notification.capRaised
            { vault with totalSupplyCap := totalSupplyCap, lastKnownTotalSupply := totalSupply }
            vault.totalSupplyCap totalSupplyCap totalSupply]
      else []
    let fillNotes : List Notification :=
      if fillChanged then
        if isNowFilled then
          [Notification.vaultFilled
              { vault with totalSupplyCap := totalSupplyCap, lastKnownTotalSupply := totalSupply,
                           isFilled := true }]
        else
          [Notification.vaultAvailable
              { vault with totalSupplyCap := totalSupplyCap, lastKnownTotalSupply := totalSupply,
                           isFilled := false }
              totalSupply]
      else []
    { updated := some { vault with totalSupplyCap := totalSupplyCap,
                                   lastKnownTotalSupply := totalSupply,
                                   isFilled := isNowFilled }
      notes := capNotes ++ fillNotes
      cacheInvalidated := capChanged || fillChanged }

/-- The observations one iteration of `VaultMonitor.monitor`
(src/vaultMonitor.ts lines 507-543) makes: the `getBlockNumber` result
(`none` when the call threw — the iteration's `catch` then fires), and
whether the `try` blocks inside `monitorNewVaults`, `monitorCapUpdates`
and `checkVaultStatus` caught an error during steps 2-4, and whether the
final `saveState` caught a disk error. -/
structure IterObs where
  height : Option ℕ
  newVaultsFailed : Bool
  capUpdatesFailed : Bool
  sweepFailed : Bool
  saveFailed : Bool
deriving DecidableEq, Repr

/-- The persisted `lastProcessedBlock` after one iteration of the
`monitor` loop (src/vaultMonitor.ts lines 507-543), starting from
persisted value `lp`. When the height read throws, the `catch` leaves the
state untouched. When `fromBlock = lp + 1 <= currentBlock`, steps 2-4 run
— all their RPC errors are caught inside `monitorNewVaults`,
`monitorCapUpdates` and `checkVaultStatus`, so they never reach this
function's control flow — and then `lastProcessedBlock` is set to
`currentBlock` and saved (a failing save is caught inside `saveState` and
persists nothing). Otherwise nothing is written. -/
def monitorIterationLp (lp : ℕ) (o : IterObs) : ℕ :=
  match o.height with
  | none => lp
  | some currentBlock =>
    if lp + 1 ≤ currentBlock then
      if o.saveFailed then lp else currentBlock
    else lp

/-- An entry of the list `VaultMonitor.getLiveVaults` returns
(src/vaultMonitor.ts lines 186-247), restricted to the fields the spec
talks about: the vault's address, the freshly read supply and cap
(written into `lastKnownTotalSupply` / `totalSupplyCap` of the returned
object), and the computed utilization percentage. -/
structure LiveVaultEntry where
  address : String
  lastKnownTotalSupply : ℕ
  totalSupplyCap : ℕ
  utilization : ℚ
deriving DecidableEq, Repr

/-- The utilization percentage computed at src/vaultMonitor.ts lines
226-228: `Number((currentSupply * 10000n) / totalSupplyCap) / 100` when
the cap is positive, else 0. -/
def utilizationOf (currentSupply totalSupplyCap : ℕ) : ℚ :=
  if 0 < totalSupplyCap then
    ((currentSupply * 10000 / totalSupplyCap : ℕ) : ℚ) / 100
  else 0

/-- The entry pushed for one live vault. -/
def liveEntry (vault : VaultState) (currentSupply totalSupplyCap : ℕ) : LiveVaultEntry where
  address := vault.address
  lastKnownTotalSupply := currentSupply
  totalSupplyCap := totalSupplyCap
  utilization := utilizationOf currentSupply totalSupplyCap

/-- Comparison used by the final `liveVaults.sort((a, b) => a.utilization - b.utilization)`. -/
def liveVaultLE (a b : LiveVaultEntry) : Prop :=
  a.utilization ≤ b.utilization

instance : DecidableRel liveVaultLE :=
  fun a b => inferInstanceAs (Decidable (a.utilization ≤ b.utilization))

instance : IsTotal LiveVaultEntry liveVaultLE :=
  ⟨fun a b => le_total a.utilization b.utilization⟩

instance : IsTrans LiveVaultEntry liveVaultLE :=
  ⟨fun _ _ _ h h2 => le_trans h h2⟩

/-- `VaultMonitor.getLiveVaults` (src/vaultMonitor.ts lines 186-247):
for every stored vault, read the market's `getLatestFTime` and skip the
vault when `latestFTime >= maturity`; read fresh `totalSupply` and
`totalSupplyCap` and skip the vault when `isVaultFilled` holds on them;
otherwise push an entry with the fresh values and the computed
utilization. Finally sort ascending by utilization. `latestFTimeOf` maps
a market address to its `getLatestFTime` answer and `freshSupplyCap` maps
a vault address to its `(totalSupply, totalSupplyCap)` reads. -/
def getLiveVaults (vaults : List VaultState) (latestFTimeOf : String → ℕ)
    (freshSupplyCap : String → ℕ × ℕ) (thresholdPercent : ℚ) : List LiveVaultEntry :=
  List.insertionSort liveVaultLE
    (vaults.filterMap (fun vault =>
      if latestFTimeOf vault.marketAddress ≥ vault.maturity then none
      else
        let sc := freshSupplyCap vault.address
        if isVaultFilled sc.1 sc.2 thresholdPercent then none
        else some (liveEntry vault sc.1 sc.2)))

/-- C1: for every supply S and cap C, `isVaultFilled S C threshold` is true
iff C > 0 and floor(S*10000/C) >= floor(threshold*100) in exact integer
basis-point arithmetic; a zero cap is never filled; and with threshold 98
and C = 1000, S = 980 is filled while S = 979 is not. -/
theorem isVaultFilled_spec :
    (∀ (currentSupply totalSupplyCap : ℕ) (thresholdPercent : ℚ),
        (isVaultFilled currentSupply totalSupplyCap thresholdPercent = true ↔
          0 < totalSupplyCap ∧
            ⌊thresholdPercent * 100⌋ ≤ ((currentSupply * 10000 / totalSupplyCap : ℕ) : ℤ)))
    ∧ (∀ (currentSupply : ℕ) (thresholdPercent : ℚ),
        isVaultFilled currentSupply 0 thresholdPercent = false)
    ∧ isVaultFilled 980 1000 98 = true
    ∧ isVaultFilled 979 1000 98 = false := by
  refine ⟨?_, ?_, ?_, ?_⟩
  · intro currentSupply totalSupplyCap thresholdPercent
    by_cases hC : totalSupplyCap = 0
    · subst hC; simp [isVaultFilled]
    · simp [isVaultFilled, hC, Nat.pos_of_ne_zero hC]
  · intro currentSupply thresholdPercent
    simp [isVaultFilled]
  · simp only [isVaultFilled]; norm_num
  · simp only [isVaultFilled]; norm_num

/-- C5: across every sequence of monitor-loop iterations — including ones
whose height read fails, whose steps 2-4 caught errors, whose save
failed, or where the RPC reports a height at or below the stored one —
the persisted `lastProcessedBlock` never decreases. -/
theorem lastProcessedBlock_monotone (iterations : List IterObs) (lp : ℕ) :
    lp ≤ List.foldl monitorIterationLp lp iterations := by
  induction iterations generalizing lp with
  | nil => simp
  | cons o rest ih =>
    have hstep : lp ≤ monitorIterationLp lp o := by
      unfold monitorIterationLp
      cases o.height with
      | none => exact le_refl lp
      | some currentBlock =>
        by_cases hle : lp + 1 ≤ currentBlock
        · by_cases hs : o.saveFailed = true
          · simp [hle, hs]
          · simp [hle, hs]; omega
        · simp [hle]
    calc lp ≤ monitorIterationLp lp o := hstep
      _ ≤ List.foldl monitorIterationLp (monitorIterationLp lp o) rest := ih _
      _ = List.foldl monitorIterationLp lp (o :: rest) := by rw [List.foldl_cons]

/-- C10: when the state file is absent (`none`) or reading/parsing it
throws (`some none`), `loadState` returns the default state — empty vault
map, `lastProcessedBlock = CONFIG.START_BLOCK || 0` — and saving that
default serializes to the empty snapshot, replacing the corrupt file. -/
theorem loadState_default_on_missing_or_corrupt (startBlock : Option ℕ) (now : ℕ) :
    loadStateFile startBlock now none
        = { lastProcessedBlock := startBlock.getD 0, vaults := [] }
    ∧ loadStateFile startBlock now (some none)
        = { lastProcessedBlock := startBlock.getD 0, vaults := [] }
    ∧ saveState (loadStateFile startBlock now (some none))
        = { lastProcessedBlock := startBlock.getD 0, vaults := [] } := by
  cases startBlock with
  | none => simp [loadStateFile, defaultState, saveState]
  | some n =>
    by_cases hn : n = 0 <;>
      simp [loadStateFile, defaultState, saveState, hn]

/-- C6: replaying a creation event whose vault is already stored (under
the lower-cased address key, regardless of the event address's casing) is
a no-op: the store is unchanged and no notification is emitted. -/
theorem creationEvent_idempotent (state : MonitorState) (ammAddress : String)
    (o : CreationObs) (thresholdPercent : ℚ) (v : VaultState)
    (h : getVault state ammAddress = some v) :
    processCreationEvent state ammAddress o thresholdPercent = (state, []) := by
  unfold processCreationEvent
  rw [h]

/-- A concrete stored vault record used by witnesses. -/
def vaultEx : VaultState where
  address := "0xAb01"
  name := "Boros AMM - X"
  symbol := "BAMM"
  totalSupplyCap := 1000
  lastKnownTotalSupply := 500
  isFilled := false
  maturity := 100
  marketAddress := "0xm1"
  lastCheckedBlock := 5
  createdAt := 7
  depositTokenSymbol := some "USDT"

/-- A concrete store holding `vaultEx` under its lower-cased key. -/
def storeEx : MonitorState where
  lastProcessedBlock := 50
  vaults := [("0xab01", vaultEx)]

/-- A concrete creation observation used by witnesses. -/
def creationObsEx : CreationObs where
  name := "Boros AMM - X"
  symbol := "BAMM"
  totalSupplyCap := 1000
  totalSupply := 500
  maturity := 100
  marketAddress := "0xm1"
  latestFTime := 10
  depositTokenSymbol := some "USDT"
  blockNumber := 60
  nowMs := 999

/-- Witness for C6: the event address arrives in mixed casing `"0xAB01"`,
the store holds the vault under `"0xab01"`; replaying the event leaves
the store unchanged and emits nothing. -/
theorem creationEvent_idempotent_witness :
    processCreationEvent storeEx "0xAB01" creationObsEx 98 = (storeEx, []) :=
  creationEvent_idempotent storeEx "0xAB01" creationObsEx 98 vaultEx (by decide)

/-- Parsing a serialized bigint recovers the number exactly. -/
theorem parseDecimal_serializeNat (n : ℕ) : parseDecimal (serializeNat n) = n := by
  unfold parseDecimal serializeNat
  by_cases hn : n = 0
  · simp [hn, Nat.ofDigits]
  · simp [hn, List.reverse_reverse, Nat.ofDigits_digits]

/-- `toString` of a bigint never yields the empty string. -/
theorem serializeNat_ne_nil (n : ℕ) : serializeNat n ≠ [] := by
  unfold serializeNat
  by_cases hn : n = 0
  · simp [hn]
  · simp [hn, Nat.digits_ne_nil_iff_ne_zero]

/-- Per-vault round trip of the save/load serialization, for vaults in
which `createdAt` is non-zero and `depositTokenSymbol` is not the empty
string. -/
theorem loadVault_saveVault (now : ℕ) (v : VaultState)
    (hca : v.createdAt ≠ 0) (hsym : v.depositTokenSymbol ≠ some "") :
    loadVault now (saveVault v) = v := by
  obtain ⟨addr, nm, sym, cap, sup, fil, mat, mkt, lcb, ca, dts⟩ := v
  dsimp only at hca hsym
  have hmkt : (if mkt = "" then "" else mkt) = mkt := by
    by_cases hm : mkt = "" <;> simp [hm]
  have hlcb : (if lcb = 0 then (0 : ℕ) else lcb) = lcb := by
    by_cases hl : lcb = 0 <;> simp [hl]
  have hca2 : (if ca = 0 then now else ca) = ca := if_neg hca
  simp only [loadVault, saveVault, serializeNat_ne_nil, ne_eq, if_false,
    parseDecimal_serializeNat, Bool.or_false, hmkt, hlcb, hca2, VaultState.mk.injEq,
    true_and, and_true]
  cases dts with
  | none => simp
  | some s =>
    have hs : s ≠ "" := fun h => hsym (by rw [h])
    simp [hs]

/-- C2 (amended): `loadState(saveState(s)) = s` for every state whose
vaults all have a non-zero `createdAt` and whose `depositTokenSymbol` is
not the empty string: `lastProcessedBlock` and every vault field, the
big-integer cap, supply and maturity serialized as decimal strings
included, are reproduced exactly. (The two excluded edge values do not
round-trip, see the counterexample theorem.) -/
theorem loadState_saveState_roundtrip (state : MonitorState) (now : ℕ)
    (h : ∀ p ∈ state.vaults, p.2.createdAt ≠ 0 ∧ p.2.depositTokenSymbol ≠ some "") :
    loadStateParsed now (saveState state) = state := by
  obtain ⟨lp, vaults⟩ := state
  dsimp only at h
  have hlp : (if lp = 0 then (0 : ℕ) else lp) = lp := by
    by_cases h0 : lp = 0 <;> simp [h0]
  have hv : ∀ l : List (String × VaultState),
      (∀ p ∈ l, p.2.createdAt ≠ 0 ∧ p.2.depositTokenSymbol ≠ some "") →
      (l.map (fun p => (p.1, saveVault p.2))).map (fun p => (p.1, loadVault now p.2)) = l := by
    intro l
    induction l with
    | nil => intro _; rfl
    | cons p rest ih =>
      intro hl
      have hp := hl p (List.mem_cons_self p rest)
      have hrest := fun q hq => hl q (List.mem_cons_of_mem p hq)
      simp only [List.map_cons, ih hrest, loadVault_saveVault now p.2 hp.1 hp.2]
  simp only [loadStateParsed, saveState, hlp, MonitorState.mk.injEq, true_and]
  exact hv vaults h

/-- A vault whose `createdAt` is the edge value 0 (with zero-valued
bigint fields so that the serialization is kernel-computable). -/
def vaultCreatedAtZero : VaultState where
  address := "0xa1"
  name := "v"
  symbol := "s"
  totalSupplyCap := 0
  lastKnownTotalSupply := 0
  isFilled := false
  maturity := 0
  marketAddress := "m"
  lastCheckedBlock := 3
  createdAt := 0
  depositTokenSymbol := none

/-- A vault whose `depositTokenSymbol` is the empty string. -/
def vaultEmptySymbol : VaultState where
  address := "0xa2"
  name := "v"
  symbol := "s"
  totalSupplyCap := 0
  lastKnownTotalSupply := 0
  isFilled := false
  maturity := 0
  marketAddress := "m"
  lastCheckedBlock := 3
  createdAt := 5
  depositTokenSymbol := some ""

/-- Counterexample to C2 as stated: the round trip is not the identity on
all valid states. A vault saved with `createdAt = 0` is loaded with
`createdAt = Date.now()` (here 1), because of the `v.createdAt ||
Date.now()` fallback; and a vault saved with `depositTokenSymbol = ""` is
loaded with no symbol at all, because of the `v.depositTokenSymbol ||
undefined` fallback. -/
theorem loadState_saveState_not_id :
    loadStateParsed 1 (saveState { lastProcessedBlock := 50, vaults := [("0xa1", vaultCreatedAtZero)] })
        ≠ { lastProcessedBlock := 50, vaults := [("0xa1", vaultCreatedAtZero)] }
    ∧ loadStateParsed 1 (saveState { lastProcessedBlock := 50, vaults := [("0xa2", vaultEmptySymbol)] })
        ≠ { lastProcessedBlock := 50, vaults := [("0xa2", vaultEmptySymbol)] } := by
  constructor <;> decide

/-- Witness for C2 (amended): a concrete state with ordinary field values
round-trips exactly. -/
theorem loadState_saveState_roundtrip_witness :
    loadStateParsed 123 (saveState storeEx) = storeEx :=
  loadState_saveState_roundtrip storeEx 123 (by decide)

/-- An iteration whose new-vault detection caught an RPC failure, with
the stored height at 10 and the chain at 20. -/
def failedIterObs : IterObs where
  height := some 20
  newVaultsFailed := true
  capUpdatesFailed := false
  sweepFailed := false
  saveFailed := false

/-- Counterexample to C3 as stated: in an iteration where an RPC failure
during step 2 (new-vault detection) was caught, `lastProcessedBlock`
still jumps from 10 to the chain height 20 — past the range [11, 20]
whose events the failed query would have covered — so the next iteration
starts at block 21 and does not re-cover that range. -/
theorem monitorIteration_advances_past_failed_range :
    failedIterObs.newVaultsFailed = true
    ∧ monitorIterationLp 10 failedIterObs = 20
    ∧ ¬ monitorIterationLp 10 failedIterObs ≤ 10 := by
  refine ⟨rfl, rfl, ?_⟩
  decide

/-- C3 (amended): a caught RPC failure in steps 2-4 does not hold
`lastProcessedBlock` back. Whenever the height read succeeds with
`fromBlock = lp + 1 ≤ currentBlock` and the save goes through, the
persisted `lastProcessedBlock` becomes `currentBlock` regardless of which
step failures were caught, so the failed range is not re-queried:
event detection in that range is at-most-once, not at-least-once. -/
theorem monitorIteration_advance_despite_failure (lp currentBlock : ℕ) (o : IterObs)
    (hfail : o.newVaultsFailed = true ∨ o.capUpdatesFailed = true ∨ o.sweepFailed = true)
    (hheight : o.height = some currentBlock)
    (hrange : lp + 1 ≤ currentBlock)
    (hsave : o.saveFailed = false) :
    monitorIterationLp lp o = currentBlock := by
  unfold monitorIterationLp
  rw [hheight]
  simp [hrange, hsave]

/-- Witness for C3 (amended) at the concrete failing iteration. -/
theorem monitorIteration_advance_despite_failure_witness :
    monitorIterationLp 10 failedIterObs = 20 :=
  monitorIteration_advance_despite_failure 10 20 failedIterObs
    (Or.inl rfl) rfl (by decide) rfl

/-- A concrete vault that is currently filled. -/
def filledVaultEx : VaultState where
  address := "0xc4"
  name := "Boros AMM - Y"
  symbol := "BAMM2"
  totalSupplyCap := 1000
  lastKnownTotalSupply := 1000
  isFilled := true
  maturity := 100
  marketAddress := "0xm2"
  lastCheckedBlock := 1
  createdAt := 2
  depositTokenSymbol := none

/-- Counterexample to C4 as stated: a cap-changed event that raises the
cap of `filledVaultEx` to 1000000 (supply 500, threshold 98) moves it
from Filled to not-Filled, yet the emitted notifications contain no
`vaultAvailable`-kind notification at all: the second notification goes
through `notifyNewVault` (the `VaultCreated` kind) instead. -/
theorem capUpdate_no_vaultAvailable :
    filledVaultEx.isFilled = true
    ∧ isVaultFilled 500 1000000 98 = false
    ∧ ((processCapEvent filledVaultEx 1000000 500 7 98).2.any
          Notification.isVaultAvailableKind) = false
    ∧ ((processCapEvent filledVaultEx 1000000 500 7 98).2.any
          Notification.isNewVaultKind) = true := by
  have hnow : isVaultFilled 500 1000000 98 = false := by
    simp only [isVaultFilled]; norm_num
  refine ⟨rfl, hnow, ?_, ?_⟩ <;>
    simp [processCapEvent, hnow, filledVaultEx,
      Notification.isVaultAvailableKind, Notification.isNewVaultKind]

/-- C4 (amended): in cap-update detection, a processed cap-changed event
that moves the vault from Filled to not-Filled makes the tracker emit,
after the `capRaised` notification, a second notification through
`notifyNewVault` (the `VaultCreated` kind, with `isFilled = false`) —
not through the distinct `notifyVaultAvailable` kind, which cap-update
detection never uses. -/
theorem capUpdate_emits_newVault_on_unfill (vault : VaultState)
    (newCap currentSupply blockNumber : ℕ) (thresholdPercent : ℚ)
    (hwas : vault.isFilled = true)
    (hnow : isVaultFilled currentSupply newCap thresholdPercent = false) :
    (processCapEvent vault newCap currentSupply blockNumber thresholdPercent).2
      = [Notification.capRaised
            { vault with totalSupplyCap := newCap, lastKnownTotalSupply := currentSupply }
            vault.totalSupplyCap newCap currentSupply,
         Notification.newVault
            { vault with totalSupplyCap := newCap, lastKnownTotalSupply := currentSupply,
                         isFilled := false }
            false]
    ∧ ((processCapEvent vault newCap currentSupply blockNumber thresholdPercent).2.any
          Notification.isVaultAvailableKind) = false := by
  constructor <;>
    simp [processCapEvent, hwas, hnow, Notification.isVaultAvailableKind]

/-- Witness for C4 (amended) at the concrete Filled-to-not-Filled event. -/
theorem capUpdate_emits_newVault_on_unfill_witness :
    (processCapEvent filledVaultEx 1000000 500 7 98).2
      = [Notification.capRaised
            { filledVaultEx with totalSupplyCap := 1000000, lastKnownTotalSupply := 500 }
            filledVaultEx.totalSupplyCap 1000000 500,
         Notification.newVault
            { filledVaultEx with totalSupplyCap := 1000000, lastKnownTotalSupply := 500,
                                 isFilled := false }
            false]
    ∧ ((processCapEvent filledVaultEx 1000000 500 7 98).2.any
          Notification.isVaultAvailableKind) = false :=
  capUpdate_emits_newVault_on_unfill filledVaultEx 1000000 500 7 98 rfl
    (by simp only [isVaultFilled]; norm_num)

/-- An expired stored vault: its market already reports a time index at
or past its maturity. -/
def expiredVaultEx : VaultState where
  address := "0xaaa"
  name := "Boros AMM - old"
  symbol := "OLD"
  totalSupplyCap := 1000
  lastKnownTotalSupply := 900
  isFilled := false
  maturity := 5
  marketAddress := "0xmold"
  lastCheckedBlock := 1
  createdAt := 2
  depositTokenSymbol := none

/-- A live stored vault with a pending cap-changed event. -/
def liveVaultEx : VaultState where
  address := "0xbbb"
  name := "Boros AMM - live"
  symbol := "LIVE"
  totalSupplyCap := 1000
  lastKnownTotalSupply := 500
  isFilled := false
  maturity := 100
  marketAddress := "0xmlive"
  lastCheckedBlock := 1
  createdAt := 2
  depositTokenSymbol := none

/-- Chain observations for the C7 scenario: the expired vault's market
reports time 10 (>= its maturity 5) and it has no events; the live
vault's market reports time 0 and it has one cap-changed event raising
the cap to 2000 at block 7, with current supply 500. No query throws. -/
def capObsEx (address : String) : CapObs :=
  if address = "0xaaa" then
    { vaultThrows := false, latestFTime := 10, events := [], currentSupply := 0 }
  else
    { vaultThrows := false, latestFTime := 0, events := [(2000, 7)], currentSupply := 500 }

/-- C7: evaluation of the cap-update pass at the failing input. With the
store holding the expired vault first and the live vault second, the
pass emits nothing at all: the `return` in the expired-vault branch
(src/vaultMonitor.ts line 636, commented "Skip expired vaults") exits
`monitorCapUpdates` entirely instead of continuing, so the live vault's
cap-changed event is never processed. The same store without the expired
vault does produce the live vault's `capRaised` notification. -/
theorem capUpdates_abort_on_expired :
    monitorCapUpdates [expiredVaultEx, liveVaultEx] capObsEx 98 = []
    ∧ monitorCapUpdates [liveVaultEx] capObsEx 98
        = [Notification.capRaised
              { liveVaultEx with totalSupplyCap := 2000, lastKnownTotalSupply := 500 }
              1000 2000 500] := by
  constructor
  · simp [monitorCapUpdates, capObsEx, expiredVaultEx]
  · simp [monitorCapUpdates, capObsEx, liveVaultEx, capEventNotes, processCapEvent]

/-- A live, unfilled vault used by the C8 scenario. -/
def sweepVaultEx : VaultState where
  address := "0xc8"
  name := "Boros AMM - Z"
  symbol := "BAMM3"
  totalSupplyCap := 1000
  lastKnownTotalSupply := 500
  isFilled := false
  maturity := 100
  marketAddress := "0xm3"
  lastCheckedBlock := 1
  createdAt := 2
  depositTokenSymbol := none

/-- Counterexample to C8 as stated: the periodic sweep reads supply 600
(was 500) with cap and fill status unchanged. The changed supply is
persisted through `updateVault`, yet `invalidateLiveVaultsCache` is not
called, so the next query within the TTL serves the stale cached data. -/
theorem sweep_supplyOnly_no_invalidate :
    (checkVaultStatus sweepVaultEx 0 600 1000 98).updated
        = some { sweepVaultEx with lastKnownTotalSupply := 600 }
    ∧ sweepVaultEx.lastKnownTotalSupply ≠ 600
    ∧ (checkVaultStatus sweepVaultEx 0 600 1000 98).cacheInvalidated = false := by
  have hfill : isVaultFilled 600 1000 98 = false := by
    simp only [isVaultFilled]; norm_num
  refine ⟨?_, by decide, ?_⟩ <;>
    simp [checkVaultStatus, sweepVaultEx, hfill]

/-- C8 (amended): for a non-expired vault, the periodic sweep always
persists the freshly read cap, supply and recomputed fill flag, but
invalidates the live-vaults cache exactly when the cap changed or the
fill flag changed; a supply-only change is persisted without invalidating
the cache. (New-vault additions and processed cap-changed events do
invalidate it, src/vaultMonitor.ts lines 600-601 and 660-661.) -/
theorem checkVaultStatus_invalidation (vault : VaultState)
    (latestFTime totalSupply totalSupplyCap : ℕ) (thresholdPercent : ℚ)
    (hlive : latestFTime < vault.maturity) :
    (checkVaultStatus vault latestFTime totalSupply totalSupplyCap thresholdPercent).updated
        = some { vault with totalSupplyCap := totalSupplyCap,
                            lastKnownTotalSupply := totalSupply,
                            isFilled := isVaultFilled totalSupply totalSupplyCap thresholdPercent }
    ∧ ((checkVaultStatus vault latestFTime totalSupply totalSupplyCap thresholdPercent).cacheInvalidated
          = true
        ↔ totalSupplyCap ≠ vault.totalSupplyCap
          ∨ vault.isFilled ≠ isVaultFilled totalSupply totalSupplyCap thresholdPercent) := by
  have hnot : ¬ latestFTime ≥ vault.maturity := not_le.mpr hlive
  constructor <;>
    simp [checkVaultStatus, hnot]

/-- Witness for C8 (amended) at the concrete supply-only sweep. -/
theorem checkVaultStatus_invalidation_witness :
    (checkVaultStatus sweepVaultEx 0 600 1000 98).updated
        = some { sweepVaultEx with totalSupplyCap := 1000,
                                   lastKnownTotalSupply := 600,
                                   isFilled := isVaultFilled 600 1000 98 }
    ∧ ((checkVaultStatus sweepVaultEx 0 600 1000 98).cacheInvalidated = true
        ↔ (1000 : ℕ) ≠ sweepVaultEx.totalSupplyCap
          ∨ sweepVaultEx.isFilled ≠ isVaultFilled 600 1000 98) :=
  checkVaultStatus_invalidation sweepVaultEx 0 600 1000 98 (by decide)

/-- C9 (amended): the live-vault query inspects every stored record and
returns an entry for a vault iff it is not expired
(`latestFTime ≥ maturity` counts as expired, equality included) and not
filled under the freshly re-fetched supply and cap; each entry carries
the fresh supply and cap and the utilization
`Number((supply * 10000n) / cap) / 100` (0 when the cap is 0, truncated
to basis points — not exactly supply/cap*100); and the returned list is
sorted ascending by utilization. -/
theorem getLiveVaults_spec (vaults : List VaultState) (latestFTimeOf : String → ℕ)
    (freshSupplyCap : String → ℕ × ℕ) (thresholdPercent : ℚ) :
    List.Sorted liveVaultLE (getLiveVaults vaults latestFTimeOf freshSupplyCap thresholdPercent)
    ∧ ∀ e, (e ∈ getLiveVaults vaults latestFTimeOf freshSupplyCap thresholdPercent ↔
        ∃ v, v ∈ vaults
          ∧ latestFTimeOf v.marketAddress < v.maturity
          ∧ isVaultFilled (freshSupplyCap v.address).1 (freshSupplyCap v.address).2
              thresholdPercent = false
          ∧ e = liveEntry v (freshSupplyCap v.address).1 (freshSupplyCap v.address).2) := by
  constructor
  · exact List.sorted_insertionSort liveVaultLE _
  · intro e
    unfold getLiveVaults
    rw [List.mem_insertionSort, List.mem_filterMap]
    constructor
    · rintro ⟨v, hv, hf⟩
      refine ⟨v, hv, ?_⟩
      by_cases h1 : latestFTimeOf v.marketAddress ≥ v.maturity
      · simp [h1] at hf
      · by_cases h2 : isVaultFilled (freshSupplyCap v.address).1 (freshSupplyCap v.address).2
            thresholdPercent = true
        · simp [h1, h2] at hf
        · have h2f : isVaultFilled (freshSupplyCap v.address).1 (freshSupplyCap v.address).2
              thresholdPercent = false := by
            simpa using h2
          simp [h1, h2f] at hf
          exact ⟨not_le.mp h1, h2f, hf.symm⟩
    · rintro ⟨v, hv, h1, h2, he⟩
      refine ⟨v, hv, ?_⟩
      simp [not_le.mpr h1, h2, he]

/-- A stored vault whose fresh supply 1 and cap 3 make the truncation in
the utilization computation visible. -/
def queryVaultEx : VaultState where
  address := "0xq"
  name := "Boros AMM - q"
  symbol := "Q"
  totalSupplyCap := 3
  lastKnownTotalSupply := 1
  isFilled := false
  maturity := 10
  marketAddress := "0xmq"
  lastCheckedBlock := 1
  createdAt := 2
  depositTokenSymbol := none

/-- Counterexample to C9 as stated: with fresh supply 1 and cap 3 the
single returned entry carries utilization `3333/100` (basis points
truncated by the integer division), which is not `1/3 * 100`. -/
theorem getLiveVaults_utilization_not_exact :
    getLiveVaults [queryVaultEx] (fun _ => 0) (fun _ => (1, 3)) 98
        = [{ address := "0xq", lastKnownTotalSupply := 1, totalSupplyCap := 3,
             utilization := (3333 : ℚ) / 100 }]
    ∧ ((3333 : ℚ) / 100) ≠ (1 : ℚ) / 3 * 100 := by
  have hfill : isVaultFilled 1 3 98 = false := by
    simp only [isVaultFilled]; norm_num
  constructor
  · have hutil : utilizationOf 1 3 = (3333 : ℚ) / 100 := by
      simp only [utilizationOf]
      norm_num
    simp [getLiveVaults, queryVaultEx, hfill, liveEntry, hutil,
      List.insertionSort, List.orderedInsert, List.filterMap]
  · norm_num
